import Mathlib

/-! Verification of the chatbot repository's statement data model, JSON
storage adapter, and conversation orchestrators, shallowly embedded from the
JavaScript sources (statement.js, adapters/json_file_storage_adapter.js,
chatbot.js, and the orchestrator snapshot in src/unnamed/part_000). -/

/-- Entities extracted by the NLP layer are opaque records to the chatbot
code (it only stores and copies them), so they are modelled as opaque
tokens. -/
abbrev Entity := String

deriving instance DecidableEq for Except

/-- JavaScript `String.prototype.toLowerCase`, modelled per character (ASCII
case folding via `Char.toLower`, which covers every string in this
development); defined over the character list so that it evaluates in the
kernel. -/
def jsToLower (s : String) : String := String.mk (s.data.map Char.toLower)

/-- JavaScript `String.prototype.trim`: drop whitespace from both ends. -/
def jsTrim (s : String) : String :=
  String.mk
    (((s.data.dropWhile Char.isWhitespace).reverse.dropWhile Char.isWhitespace).reverse)

/-- The persisted record shape: exactly the fields that `Statement.serialize`
emits and that the JSON storage adapter reads and writes per entry. -/
structure SerializedStatement where
  text : String
  in_response_to : Option String
  conversation : String
  timestamp : Nat
  intent : Option String
  entities : List Entity
  deriving DecidableEq, Repr

/-- The in-memory Statement object (statement.js). The `storage_data` field
(always the empty object, never read anywhere) is omitted. -/
structure Statement where
  text : String
  in_response_to : Option String
  conversation : String
  confidence : Rat
  timestamp : Nat
  intent : Option String
  entities : List Entity
  deriving DecidableEq, Repr

/-- JavaScript `v || d` for an optional string config field: null, undefined
and the empty string are falsy and give the default. -/
def jsOrString (v : Option String) (d : String) : String :=
  match v with
  | some s => if s = "" then d else s
  | none => d

/-- JavaScript `v || null` for an optional string config field. -/
def jsOrNull (v : Option String) : Option String :=
  match v with
  | some s => if s = "" then none else some s
  | none => none

/-- An object argument to `new Statement(config)`: each field may be absent
(undefined). -/
structure StatementInit where
  text : Option String := none
  in_response_to : Option String := none
  conversation : Option String := none
  confidence : Option Rat := none
  timestamp : Option Nat := none
  intent : Option String := none
  entities : Option (List Entity) := none
  deriving DecidableEq, Repr

/-- The object branch of the Statement constructor (statement.js lines
14-22): each field is `config.field || default`; `now` stands for
`Date.now()`. -/
def mkStatementObj (config : StatementInit) (now : Nat) : Statement :=
  { text := jsOrString config.text ""
    in_response_to := jsOrNull config.in_response_to
    conversation := jsOrString config.conversation "default"
    confidence := (config.confidence).getD 0
    timestamp := match config.timestamp with
      | some t => if t = 0 then now else t
      | none => now
    intent := jsOrNull config.intent
    entities := (config.entities).getD [] }

/-- A raw argument to `new Statement(config)`: a string, an object, or one of
the JavaScript values that are neither a string nor a non-null object (null,
undefined, a number, a boolean), for which the constructor throws. -/
inductive StatementConfig where
  | str (s : String)
  | obj (o : StatementInit)
  | nullV
  | undefinedV
  | num (q : Rat)
  | boolV (b : Bool)
  deriving DecidableEq, Repr

/-- `typeof config === "string"`. -/
def StatementConfig.isStringArg : StatementConfig → Bool
  | .str _ => true
  | _ => false

/-- `typeof config === "object" && config !== null`. -/
def StatementConfig.isObjectArg : StatementConfig → Bool
  | .obj _ => true
  | _ => false

/-- `new Statement(config)` (statement.js lines 2-26): the string branch, the
non-null object branch, and otherwise
`throw new Error("Invalid Statement configuration")`. -/
def Statement.construct (config : StatementConfig) (now : Nat) : Except String Statement :=
  match config with
  | .str s =>
      Except.ok { text := s, in_response_to := none, conversation := "default",
                  confidence := 0, timestamp := now, intent := none, entities := [] }
  | .obj o => Except.ok (mkStatementObj o now)
  | _ => Except.error "Invalid Statement configuration"

/-- `Statement.serialize` (statement.js lines 29-40): the persisted form;
`confidence` (and `storage_data`) are not included. -/
def Statement.serialize (s : Statement) : SerializedStatement :=
  { text := s.text
    in_response_to := s.in_response_to
    conversation := s.conversation
    timestamp := s.timestamp
    intent := s.intent
    entities := s.entities }

/-- `Statement.deserialize(data)` = `new Statement(data)` for stored records
(always objects here, so the invalid-data branch cannot fire). A stored
record carries no confidence key, so the constructor recomputes it as 0. -/
def Statement.deserialize (d : SerializedStatement) (now : Nat) : Statement :=
  mkStatementObj
    { text := some d.text, in_response_to := d.in_response_to,
      conversation := some d.conversation, timestamp := some d.timestamp,
      intent := d.intent, entities := some d.entities } now

/-- A query field as the JavaScript filter sees it: absent (undefined),
explicit null, a string, or some non-string value such as a number. -/
inductive JsQueryField where
  | undefined
  | null
  | str (s : String)
  | nonString
  deriving DecidableEq, Repr

/-- A query object passed to `JsonFileStorageAdapter.filter`. The adapter's
code reads only `in_response_to`; the `intent` field is carried here because
`BestMatchLogicAdapter.process` passes one, but `filter` never consults it. -/
structure FilterQuery where
  in_response_to : JsQueryField := JsQueryField.undefined
  intent : JsQueryField := JsQueryField.undefined
  deriving DecidableEq, Repr

/-- `JsonFileStorageAdapter.filter` (json_file_storage_adapter.js lines
83-109) over the in-memory statements array. Only the `in_response_to`
criterion is implemented: an absent or null `in_response_to` leaves the
array unfiltered, a non-string one empties it, and a string one keeps the
case-insensitive matches. `query.intent` is never read. -/
def JsonFileStorageAdapter.filter (query : FilterQuery)
    (store : List SerializedStatement) : List SerializedStatement :=
  match query.in_response_to with
  | JsQueryField.undefined => store
  | JsQueryField.null => store
  | JsQueryField.nonString => []
  | JsQueryField.str q =>
      store.filter fun stmtData =>
        match stmtData.in_response_to with
        | some t => jsToLower t == jsToLower q
        | none => false

/-- JavaScript `Array.prototype.findIndex`, with `none` standing for -1. -/
def findIndexJs (p : SerializedStatement → Bool) :
    List SerializedStatement → Option Nat
  | [] => none
  | r :: rs => if p r then some 0 else (findIndexJs p rs).map (· + 1)

/-- `JsonFileStorageAdapter.update` (json_file_storage_adapter.js lines
115-159): serialize, find an existing record by case-insensitive text, then
push or merge in place, and return the stored record together with the new
statements array. The object-spread merge {...existing, ...statementData}
overwrites every field of the existing record, because `serialize` always
emits all six keys. The skip branch (`textToCompare === null`) would need a
non-string `text`, which the Statement constructor never produces, so it
does not appear here. -/
def JsonFileStorageAdapter.update (statement : Statement)
    (store : List SerializedStatement) :
    SerializedStatement × List SerializedStatement :=
  let statementData := statement.serialize
  let textToCompare := jsToLower statementData.text
  match findIndexJs (fun stmtData => jsToLower stmtData.text == textToCompare) store with
  | none => (statementData, store ++ [statementData])
  | some i => (statementData, store.set i statementData)

/-- preprocessors.js `cleanWhitespace`: trim leading and trailing blanks. -/
def cleanWhitespace (s : Statement) : Statement := { s with text := jsTrim s.text }

/-- preprocessors.js `lowercase`. -/
def lowercase (s : Statement) : Statement := { s with text := jsToLower s.text }

/-- The default preprocessor pipeline of every ChatBot constructor:
cleanWhitespace, then lowercase. -/
def defaultPreprocessors : List (Statement → Statement) := [cleanWhitespace, lowercase]

/-- `ChatBot.preprocess`: fold the pipeline left to right. (The non-string
text guard in the source cannot fire here: text is always a string in this
model.) -/
def preprocess (ps : List (Statement → Statement)) (s : Statement) : Statement :=
  ps.foldl (fun acc p => p acc) s

/-- What an `adapter.process` call resolves to: a response Statement or null,
and a confidence. -/
structure AdapterResult where
  response : Option Statement
  confidence : Rat
  deriving DecidableEq, Repr

/-- A logic adapter as the orchestrators consume one: `canProcess` plus an
async `process` that may reject (modelled with `Except`). -/
structure LogicAdapterModel where
  canProcess : Statement → Bool
  process : Statement → List SerializedStatement → Except String AdapterResult

/-- What `nlpProcessor.process(text)` resolves to. The wrapper catches its
own errors and falls back to the unknown intent, so the oracle is total. -/
structure NlpResult where
  intent : String
  score : Rat
  entities : List Entity
  deriving DecidableEq, Repr

/-- The argument of `getResponse`: an existing Statement (the `instanceof`
branch) or a raw value handed to the Statement constructor. -/
inductive InputData where
  | stmt (s : Statement)
  | raw (c : StatementConfig)
  deriving DecidableEq, Repr

/-- `inputData instanceof Statement ? inputData : new Statement(inputData)`. -/
def coerceInput (inputData : InputData) (now : Nat) : Except String Statement :=
  match inputData with
  | InputData.stmt s => Except.ok s
  | InputData.raw c => Statement.construct c now

/-- `ChatBot.learnInputSequence` (chatbot.js lines 127-135): upsert a link
from the current text to the previous text unless either text is falsy. -/
def learnInputSequence (statement previousStatement : Statement)
    (store : List SerializedStatement) (now : Nat) : List SerializedStatement :=
  if statement.text = "" ∨ previousStatement.text = "" then store
  else
    (JsonFileStorageAdapter.update
      (mkStatementObj
        { text := some statement.text, in_response_to := some previousStatement.text,
          intent := statement.intent } now) store).2

/-- `ChatBot.learnResponseToIntent` (chatbot.js lines 137-147): upsert the
chosen response under the input's intent unless the text or the intent is
falsy. -/
def learnResponseToIntent (responseStatement : Statement) (intent : Option String)
    (store : List SerializedStatement) (now : Nat) : List SerializedStatement :=
  match intent with
  | none => store
  | some it =>
      if responseStatement.text = "" ∨ it = "" then store
      else
        (JsonFileStorageAdapter.update
          (mkStatementObj
            { text := some responseStatement.text,
              in_response_to := responseStatement.in_response_to,
              intent := some it } now) store).2

/-- The selection threshold of the NLP orchestrator (chatbot.js line 95:
`const confidenceThreshold = 0.4`). -/
def confidenceThreshold : Rat := mkRat 2 5

/-- The configuration of the NLP orchestrator in chatbot.js. -/
structure BotConfigV1 where
  nlp : String → NlpResult
  logicAdapters : List LogicAdapterModel
  preprocessors : List (Statement → Statement) := defaultPreprocessors

/-- The mutable state of the NLP orchestrator. -/
structure BotStateV1 where
  store : List SerializedStatement
  previous_statement : Option Statement
  nlpReady : Bool
  deriving DecidableEq, Repr

/-- The adapter fan-out of the NLP orchestrator (chatbot.js lines 74-90):
there is no try/catch here, so a rejecting `process` aborts the fold. -/
def runAdaptersV1 (adapters : List LogicAdapterModel) (input : Statement)
    (store : List SerializedStatement) : Except String (Option AdapterResult × Rat) :=
  adapters.foldlM
    (fun acc adapter =>
      if adapter.canProcess input then do
        let result ← adapter.process input store
        if result.confidence > acc.2 then pure (some result, result.confidence)
        else pure acc
      else pure acc)
    (none, -1)

/-- Input coercion, preprocessing and NLP classification of the NLP
orchestrator (chatbot.js lines 55-65). -/
def v1Classify (cfg : BotConfigV1) (inputData : InputData) (now : Nat) :
    Except String (Statement × NlpResult) :=
  match coerceInput inputData now with
  | Except.error e => Except.error e
  | Except.ok s₀ =>
      let s₁ := preprocess cfg.preprocessors s₀
      let nlpResult := cfg.nlp s₁.text
      Except.ok ({ s₁ with intent := some nlpResult.intent,
                           entities := nlpResult.entities },
                 nlpResult)

/-- The default-response text of the NLP orchestrator (chatbot.js lines
108-111), which depends on the classified intent and the NLP score. -/
def v1DefaultText (input : Statement) (nlpResult : NlpResult) : String :=
  if nlpResult.intent ≠ "unknown" ∧ nlpResult.score > mkRat 1 2 then
    "I understand you're asking about '" ++ nlpResult.intent ++
      "', but I don't have a specific answer for '" ++ input.text ++ "' yet."
  else
    "I'm not sure how to respond to '" ++ input.text ++ "'."

/-- The default response Statement of the NLP orchestrator (chatbot.js lines
112-117). -/
def v1Default (input : Statement) (nlpResult : NlpResult) (now : Nat) : Statement :=
  mkStatementObj
    { text := some (v1DefaultText input nlpResult), confidence := some 0,
      in_response_to := some input.text, intent := some "default_response" } now

/-- The store after the input-sequence learning step of the NLP orchestrator
(chatbot.js lines 67-71). -/
def v1StoreAfterSequenceLearning (st : BotStateV1) (input : Statement) (now : Nat) :
    List SerializedStatement :=
  match st.previous_statement with
  | some prev => learnInputSequence input prev st.store now
  | none => st.store

/-- `ChatBot.getResponse` of the NLP orchestrator (chatbot.js lines 50-125):
readiness gate, coercion, preprocessing, classification, input-sequence
learning, uncaught adapter fan-out, selection at
`maxConfidence >= confidenceThreshold` (with no `in_response_to` restamp on
the adopted response), response-to-intent learning on the adopted path only,
and the previous-statement advance. -/
def getResponseV1 (cfg : BotConfigV1) (st : BotStateV1) (inputData : InputData)
    (now : Nat) : Except String (Statement × BotStateV1) :=
  if st.nlpReady = false then
    Except.ok
      (mkStatementObj { text := some "I'm still starting up, please wait a moment.",
                        confidence := some 0 } now, st)
  else
    match v1Classify cfg inputData now with
    | Except.error e => Except.error e
    | Except.ok (inputStatement, nlpResult) =>
        let store₁ := v1StoreAfterSequenceLearning st inputStatement now
        match runAdaptersV1 cfg.logicAdapters inputStatement store₁ with
        | Except.error e => Except.error e
        | Except.ok (bestMatch, maxConfidence) =>
            match bestMatch with
            | some r =>
                match r.response with
                | some resp =>
                    if maxConfidence ≥ confidenceThreshold then
                      let responseStatement := { resp with confidence := maxConfidence }
                      Except.ok
                        (responseStatement,
                         { store := learnResponseToIntent responseStatement
                             inputStatement.intent store₁ now,
                           previous_statement := some inputStatement,
                           nlpReady := st.nlpReady })
                    else
                      Except.ok (v1Default inputStatement nlpResult now,
                        { store := store₁, previous_statement := some inputStatement,
                          nlpReady := st.nlpReady })
                | none =>
                    Except.ok (v1Default inputStatement nlpResult now,
                      { store := store₁, previous_statement := some inputStatement,
                        nlpReady := st.nlpReady })
            | none =>
                Except.ok (v1Default inputStatement nlpResult now,
                  { store := store₁, previous_statement := some inputStatement,
                    nlpReady := st.nlpReady })

/-- The configuration of the earlier orchestrator (src/unnamed/part_000). -/
structure BotConfigV0 where
  logicAdapters : List LogicAdapterModel
  preprocessors : List (Statement → Statement) := defaultPreprocessors

/-- The mutable state of the earlier orchestrator. -/
structure BotStateV0 where
  store : List SerializedStatement
  previous_statement : Option Statement
  deriving DecidableEq, Repr

/-- The adapter fan-out of the earlier orchestrators (part_000 lines 71-90
and chatbot.js lines 251-268): a rejecting `process` is caught and logged
(the adapter abstains), and a result whose response is not a Statement is
warned about and skipped. -/
def runAdaptersV0 (adapters : List LogicAdapterModel) (input : Statement)
    (store : List SerializedStatement) : Option AdapterResult × Rat :=
  adapters.foldl
    (fun acc adapter =>
      if adapter.canProcess input then
        match adapter.process input store with
        | Except.error _ => acc
        | Except.ok result =>
            match result.response with
            | none => acc
            | some _ =>
                if result.confidence > acc.2 then (some result, result.confidence)
                else acc
      else acc)
    (none, -1)

/-- `ChatBot.learnResponse` (part_000 lines 133-148). -/
def learnResponseV0 (statement previousStatement : Statement)
    (store : List SerializedStatement) (now : Nat) : List SerializedStatement :=
  (JsonFileStorageAdapter.update
    (mkStatementObj
      { text := some statement.text,
        in_response_to := some previousStatement.text } now)
    store).2

/-- The fixed empty-input response of part_000 (lines 60-64). -/
def pleaseProvideInput (now : Nat) : Statement :=
  mkStatementObj { text := some "Please provide some input.", confidence := some 0,
                   in_response_to := none } now

/-- The default response of part_000 (lines 116-120). -/
def v0Default (input : Statement) (now : Nat) : Statement :=
  mkStatementObj { text := some "I'm sorry, I don't understand.", confidence := some 0,
                   in_response_to := some input.text } now

/-- `ChatBot.getResponse` of src/unnamed/part_000 (lines 49-126): coercion,
preprocessing, the empty-text short-circuit, the catching adapter fan-out,
post-fan-out sequence learning, previous-statement advance, and selection at
`bestMatch.confidence > 0` with `in_response_to` restamped to the input's
text. -/
def getResponseV0 (cfg : BotConfigV0) (st : BotStateV0) (inputData : InputData)
    (now : Nat) : Except String (Statement × BotStateV0) :=
  match coerceInput inputData now with
  | Except.error e => Except.error e
  | Except.ok s₀ =>
      let inputStatement := preprocess cfg.preprocessors s₀
      if inputStatement.text = "" then
        Except.ok (pleaseProvideInput now, st)
      else
        let bestMatch := (runAdaptersV0 cfg.logicAdapters inputStatement st.store).1
        let store₁ :=
          if inputStatement.text ≠ "" then
            match st.previous_statement with
            | some prev => learnResponseV0 inputStatement prev st.store now
            | none => st.store
          else st.store
        let previous₁ :=
          if inputStatement.text ≠ "" then some inputStatement
          else st.previous_statement
        match bestMatch with
        | some r =>
            if r.confidence > 0 then
              match r.response with
              | some resp =>
                  Except.ok
                    ({ resp with confidence := r.confidence,
                                 in_response_to := some inputStatement.text },
                     { store := store₁, previous_statement := previous₁ })
              | none =>
                  -- unreachable: the fan-out keeps only results carrying a Statement
                  Except.ok (v0Default inputStatement now,
                    { store := store₁, previous_statement := previous₁ })
            else
              Except.ok (v0Default inputStatement now,
                { store := store₁, previous_statement := previous₁ })
        | none =>
            Except.ok (v0Default inputStatement now,
              { store := store₁, previous_statement := previous₁ })

/-- The case-insensitive upsert as a structural recursion, used by the proofs;
`update_store_eq` shows it equal to the findIndex-then-set implementation. -/
def upsertModel (sd : SerializedStatement) :
    List SerializedStatement → List SerializedStatement
  | [] => [sd]
  | r :: rs =>
      if jsToLower r.text == jsToLower sd.text then sd :: rs else r :: upsertModel sd rs

/-- The store invariant of the data model: at most one record per
case-insensitive text key. -/
def DedupKeys (store : List SerializedStatement) : Prop :=
  store.Pairwise (fun a b => jsToLower a.text ≠ jsToLower b.text)

lemma upsert_of_findIndex_none (sd : SerializedStatement)
    {l : List SerializedStatement}
    (h : findIndexJs (fun r => jsToLower r.text == jsToLower sd.text) l = none) :
    l ++ [sd] = upsertModel sd l := by
  induction l with
  | nil => rfl
  | cons r rs ih =>
    rw [findIndexJs] at h
    by_cases hk : (jsToLower r.text == jsToLower sd.text) = true
    · rw [if_pos hk] at h
      exact absurd h (by simp)
    · rw [if_neg hk, Option.map_eq_none'] at h
      rw [upsertModel, if_neg hk, List.cons_append, ih h]

lemma upsert_of_findIndex_some (sd : SerializedStatement)
    {l : List SerializedStatement} {i : Nat}
    (h : findIndexJs (fun r => jsToLower r.text == jsToLower sd.text) l = some i) :
    l.set i sd = upsertModel sd l := by
  induction l generalizing i with
  | nil => exact absurd h (by rw [findIndexJs]; simp)
  | cons r rs ih =>
    rw [findIndexJs] at h
    by_cases hk : (jsToLower r.text == jsToLower sd.text) = true
    · rw [if_pos hk] at h
      cases h
      rw [upsertModel, if_pos hk]
      rfl
    · rw [if_neg hk, Option.map_eq_some'] at h
      obtain ⟨j, hj, rfl⟩ := h
      rw [upsertModel, if_neg hk, List.set_cons_succ, ih hj]

lemma update_store_eq (s : Statement) (store : List SerializedStatement) :
    (JsonFileStorageAdapter.update s store).2 = upsertModel s.serialize store := by
  rw [JsonFileStorageAdapter.update]
  cases hfi : findIndexJs
      (fun stmtData => jsToLower stmtData.text == jsToLower s.serialize.text) store with
  | none => exact upsert_of_findIndex_none s.serialize hfi
  | some i => exact upsert_of_findIndex_some s.serialize hfi

lemma update_fst_eq (s : Statement) (store : List SerializedStatement) :
    (JsonFileStorageAdapter.update s store).1 = s.serialize := by
  rw [JsonFileStorageAdapter.update]
  cases findIndexJs
      (fun stmtData => jsToLower stmtData.text == jsToLower s.serialize.text) store with
  | none => rfl
  | some i => rfl

lemma mem_upsertModel {x sd : SerializedStatement} {l : List SerializedStatement}
    (h : x ∈ upsertModel sd l) : x = sd ∨ x ∈ l := by
  induction l with
  | nil => simpa [upsertModel] using h
  | cons r rs ih =>
    by_cases hk : (jsToLower r.text == jsToLower sd.text) = true
    · rw [upsertModel, if_pos hk, List.mem_cons] at h
      rcases h with h | h
      · exact Or.inl h
      · exact Or.inr (List.mem_cons_of_mem _ h)
    · rw [upsertModel, if_neg hk, List.mem_cons] at h
      rcases h with h | h
      · exact Or.inr (by simp [h])
      · rcases ih h with h' | h'
        · exact Or.inl h'
        · exact Or.inr (List.mem_cons_of_mem _ h')

lemma dedup_upsertModel (sd : SerializedStatement) {l : List SerializedStatement}
    (h : DedupKeys l) : DedupKeys (upsertModel sd l) := by
  induction l with
  | nil => simp [upsertModel, DedupKeys]
  | cons r rs ih =>
    rw [DedupKeys, List.pairwise_cons] at h
    by_cases hk : (jsToLower r.text == jsToLower sd.text) = true
    · have hk' : jsToLower r.text = jsToLower sd.text := by simpa using hk
      rw [upsertModel, if_pos hk, DedupKeys, List.pairwise_cons]
      exact ⟨fun b hb => hk' ▸ h.1 b hb, h.2⟩
    · have hk' : jsToLower r.text ≠ jsToLower sd.text := by simpa using hk
      rw [upsertModel, if_neg hk, DedupKeys, List.pairwise_cons]
      refine ⟨fun b hb => ?_, ih h.2⟩
      rcases mem_upsertModel hb with rfl | hb'
      · exact hk'
      · exact h.1 b hb'

lemma filter_upsertModel (sd : SerializedStatement) {l : List SerializedStatement}
    (h : DedupKeys l) :
    (upsertModel sd l).filter (fun r => jsToLower r.text == jsToLower sd.text) = [sd] := by
  induction l with
  | nil => simp [upsertModel]
  | cons r rs ih =>
    rw [DedupKeys, List.pairwise_cons] at h
    by_cases hk : (jsToLower r.text == jsToLower sd.text) = true
    · have hk' : jsToLower r.text = jsToLower sd.text := by simpa using hk
      rw [upsertModel, if_pos hk, List.filter_cons]
      simp only [beq_self_eq_true, if_true]
      have hnil : rs.filter (fun x => jsToLower x.text == jsToLower sd.text) = [] := by
        rw [List.filter_eq_nil_iff]
        intro a ha
        have hne := h.1 a ha
        simp only [beq_iff_eq]
        rw [← hk']
        exact fun hc => hne hc.symm
      rw [hnil]
    · rw [upsertModel, if_neg hk, List.filter_cons, if_neg (by simpa using hk)]
      exact ih h.2

/-- A store holding one record whose own intent is "goodbye". -/
def c1Store : List SerializedStatement :=
  [{ text := "see you later", in_response_to := none, conversation := "default",
     timestamp := 0, intent := some "goodbye", entities := [] }]

/-- Claim C1: `filter(\x7bintent: X\x7d)` is claimed to return exactly the stored
records whose own intent equals X case-insensitively. The implementation
never reads the intent query field: with a store whose only record has
intent "goodbye", the query for "greeting" returns that record unchanged
although the set of intent-matching records is empty. -/
theorem C1_filter_ignores_intent_query :
    JsonFileStorageAdapter.filter
      { in_response_to := JsQueryField.undefined, intent := JsQueryField.str "greeting" }
      c1Store = c1Store
    ∧ c1Store.filter (fun r => r.intent == some "greeting") = []
    ∧ c1Store ≠ [] := by
  decide

/-- A store holding one arbitrary record. -/
def c5Store : List SerializedStatement :=
  [{ text := "how are you", in_response_to := some "hello", conversation := "default",
     timestamp := 0, intent := none, entities := [] }]

/-- Claim C5 counterexample: `filter(\x7bin_response_to: null\x7d)` on a one-record
store returns the whole store, not the claimed empty sequence. -/
theorem C5_null_filter_cex :
    JsonFileStorageAdapter.filter { in_response_to := JsQueryField.null } c5Store = c5Store
    ∧ c5Store ≠ [] := by
  decide

/-- Claim C5 (amended): a null or unset `in_response_to` query field applies
no filtering and returns the entire stored sequence, while a non-string
(invalid) value yields the empty sequence; in all cases the filter is a
total function, so it never throws. -/
theorem C5_filter_field_behavior :
    ∀ (store : List SerializedStatement) (q : JsQueryField),
      JsonFileStorageAdapter.filter
          { in_response_to := JsQueryField.null, intent := q } store = store
      ∧ JsonFileStorageAdapter.filter
          { in_response_to := JsQueryField.undefined, intent := q } store = store
      ∧ JsonFileStorageAdapter.filter
          { in_response_to := JsQueryField.nonString, intent := q } store = [] := by
  intro store q
  exact ⟨rfl, rfl, rfl⟩

/-- Claim C6: on a store with at most one record per case-insensitive text
key, updating twice with the same Statement leaves exactly one record under
that Statement's text key, and update preserves the key invariant. -/
theorem C6_update_idempotent (s : Statement) (store : List SerializedStatement)
    (h : DedupKeys store) :
    List.countP (fun r => jsToLower r.text == jsToLower s.text)
        ((JsonFileStorageAdapter.update s
          ((JsonFileStorageAdapter.update s store).2)).2) = 1
    ∧ DedupKeys ((JsonFileStorageAdapter.update s store).2) := by
  constructor
  · rw [update_store_eq, update_store_eq]
    have h1 : DedupKeys (upsertModel s.serialize store) := dedup_upsertModel _ h
    rw [List.countP_eq_length_filter]
    rw [show (fun r : SerializedStatement => jsToLower r.text == jsToLower s.text)
        = (fun r : SerializedStatement =>
            jsToLower r.text == jsToLower s.serialize.text) from rfl]
    rw [filter_upsertModel _ h1]
    rfl
  · rw [update_store_eq]
    exact dedup_upsertModel _ h

/-- A concrete statement for the C6 witness. -/
def c6Stmt : Statement := mkStatementObj { text := some "Hello" } 5

/-- Witness for C6 at a concrete statement and the empty store. -/
theorem C6_update_idempotent_witness :
    List.countP (fun r => jsToLower r.text == jsToLower c6Stmt.text)
        ((JsonFileStorageAdapter.update c6Stmt
          ((JsonFileStorageAdapter.update c6Stmt []).2)).2) = 1
    ∧ DedupKeys ((JsonFileStorageAdapter.update c6Stmt []).2) :=
  C6_update_idempotent c6Stmt [] (by rw [DedupKeys]; exact List.Pairwise.nil)

/-- The first upsert of the C7 scenario: text "a" answering "x". -/
def c7Stmt1 (now : Nat) : Statement :=
  mkStatementObj { text := some "a", in_response_to := some "x" } now

/-- The second upsert of the C7 scenario: text "a" answering "y". -/
def c7Stmt2 (now : Nat) : Statement :=
  mkStatementObj { text := some "a", in_response_to := some "y" } now

/-- Claim C7: on a store satisfying the data model's key invariant, upserting
text "a" with in_response_to "x" and then with "y" leaves exactly one record
under key "a", namely the serialization of the second Statement, whose
in_response_to is "y" (the merge overwrites the conflicting field). -/
theorem C7_last_write_wins (store : List SerializedStatement) (now₁ now₂ : Nat)
    (h : DedupKeys store) :
    ((JsonFileStorageAdapter.update (c7Stmt2 now₂)
        ((JsonFileStorageAdapter.update (c7Stmt1 now₁) store).2)).2).filter
      (fun r => jsToLower r.text == "a") = [(c7Stmt2 now₂).serialize]
    ∧ ((c7Stmt2 now₂).serialize).in_response_to = some "y" := by
  constructor
  · rw [update_store_eq, update_store_eq]
    have h1 : DedupKeys (upsertModel (c7Stmt1 now₁).serialize store) :=
      dedup_upsertModel _ h
    rw [show (fun r : SerializedStatement => jsToLower r.text == "a")
        = (fun r : SerializedStatement =>
            jsToLower r.text == jsToLower ((c7Stmt2 now₂).serialize).text) from rfl]
    exact filter_upsertModel _ h1
  · rfl

/-- Witness for C7 at the empty store. -/
theorem C7_last_write_wins_witness :
    ((JsonFileStorageAdapter.update (c7Stmt2 7)
        ((JsonFileStorageAdapter.update (c7Stmt1 3) []).2)).2).filter
      (fun r => jsToLower r.text == "a") = [(c7Stmt2 7).serialize]
    ∧ ((c7Stmt2 7).serialize).in_response_to = some "y" :=
  C7_last_write_wins [] 3 7 (by rw [DedupKeys]; exact List.Pairwise.nil)

/-- A Statement whose text is blank (the constructor coerces a missing text
to the empty string as well, so this covers both "missing" and "blank"). -/
def c8Blank (now : Nat) : Statement := mkStatementObj { text := some "" } now

/-- Claim C8 counterexample: updating with a blank-text Statement on the
empty store does not skip the write: the record is appended (the store
changes) and the stored record, not a skip sentinel, is returned. -/
theorem C8_blank_text_cex :
    (JsonFileStorageAdapter.update (c8Blank 0) []).2 = [(c8Blank 0).serialize]
    ∧ (JsonFileStorageAdapter.update (c8Blank 0) []).2 ≠ []
    ∧ ((c8Blank 0).serialize).text = ""
    ∧ (JsonFileStorageAdapter.update (c8Blank 0) []).1 = (c8Blank 0).serialize := by
  decide

/-- Claim C8 (amended): a blank text is a string, so `update` treats it as an
ordinary key: on a store satisfying the key invariant it upserts exactly one
record under the empty-string key and returns that stored record; the skip
sentinel would require a non-string text, which the Statement constructor
never produces. -/
theorem C8_blank_text_amended (now : Nat) (store : List SerializedStatement)
    (h : DedupKeys store) :
    List.countP (fun r => jsToLower r.text == "")
        ((JsonFileStorageAdapter.update (c8Blank now) store).2) = 1
    ∧ (JsonFileStorageAdapter.update (c8Blank now) store).1 = (c8Blank now).serialize
    ∧ ((c8Blank now).serialize).text = "" := by
  refine ⟨?_, update_fst_eq _ _, rfl⟩
  rw [update_store_eq, List.countP_eq_length_filter]
  rw [show (fun r : SerializedStatement => jsToLower r.text == "")
      = (fun r : SerializedStatement =>
          jsToLower r.text == jsToLower ((c8Blank now).serialize).text) from rfl]
  rw [filter_upsertModel _ h]
  rfl

/-- Witness for the amended C8 at the empty store. -/
theorem C8_blank_text_amended_witness :
    List.countP (fun r => jsToLower r.text == "")
        ((JsonFileStorageAdapter.update (c8Blank 0) []).2) = 1
    ∧ (JsonFileStorageAdapter.update (c8Blank 0) []).1 = (c8Blank 0).serialize
    ∧ ((c8Blank 0).serialize).text = "" :=
  C8_blank_text_amended 0 [] (by rw [DedupKeys]; exact List.Pairwise.nil)

/-- Claim C9: the persisted form consists of exactly the six fields text,
in_response_to, conversation, timestamp, intent, entities; confidence is
never persisted (serializations of Statements differing only in confidence
coincide), and a record read back from storage has its confidence recomputed
as 0. -/
theorem C9_serialized_shape (s : Statement) (c : Rat) :
    Statement.serialize s =
      { text := s.text, in_response_to := s.in_response_to,
        conversation := s.conversation, timestamp := s.timestamp,
        intent := s.intent, entities := s.entities }
    ∧ Statement.serialize { s with confidence := c } = Statement.serialize s
    ∧ (Statement.deserialize (Statement.serialize s) 0).confidence = 0 :=
  ⟨rfl, rfl, rfl⟩

/-- Claim C10: a constructor argument that is neither a string nor a non-null
object makes the Statement constructor throw "Invalid Statement
configuration", and the NLP orchestrator's getResponse, which coerces a raw
input with `new Statement(inputData)` on its ready path, rejects with that
same error instead of returning a Statement. -/
theorem C10_invalid_config_rejects (c : StatementConfig) (now : Nat)
    (cfg : BotConfigV1) (st : BotStateV1)
    (h₁ : c.isStringArg = false) (h₂ : c.isObjectArg = false)
    (hready : st.nlpReady = true) :
    Statement.construct c now = Except.error "Invalid Statement configuration"
    ∧ getResponseV1 cfg st (InputData.raw c) now =
        Except.error "Invalid Statement configuration" := by
  have hcon : Statement.construct c now =
      Except.error "Invalid Statement configuration" := by
    cases c <;> simp_all [StatementConfig.isStringArg, StatementConfig.isObjectArg,
      Statement.construct]
  refine ⟨hcon, ?_⟩
  rw [getResponseV1, hready, if_neg (by simp)]
  simp only [v1Classify, coerceInput, hcon]

/-- A concrete NLP orchestrator configuration for witnesses. -/
def wCfg : BotConfigV1 :=
  { nlp := fun _ => { intent := "unknown", score := 0, entities := [] },
    logicAdapters := [] }

/-- A ready orchestrator state over the empty store. -/
def wReadyState : BotStateV1 :=
  { store := [], previous_statement := none, nlpReady := true }

/-- Witness for C10 at the null argument. -/
theorem C10_invalid_config_rejects_witness :
    Statement.construct StatementConfig.nullV 0 =
      Except.error "Invalid Statement configuration"
    ∧ getResponseV1 wCfg wReadyState (InputData.raw StatementConfig.nullV) 0 =
        Except.error "Invalid Statement configuration" :=
  C10_invalid_config_rejects StatementConfig.nullV 0 wCfg wReadyState rfl rfl rfl

/-- Claim C4 (amended): in the part_000 orchestrator, any input whose text is
empty after preprocessing returns the fixed "Please provide some input."
Statement immediately, with the bot state (store and previous statement)
unchanged and a result independent of the configured logic adapters. -/
theorem C4_empty_input_short_circuit (cfg : BotConfigV0) (st : BotStateV0)
    (inputData : InputData) (now : Nat) (s₀ : Statement)
    (hc : coerceInput inputData now = Except.ok s₀)
    (he : (preprocess cfg.preprocessors s₀).text = "") :
    getResponseV0 cfg st inputData now = Except.ok (pleaseProvideInput now, st) := by
  rw [getResponseV0, hc]
  simp [he]

/-- An always-eager adapter used to show the short-circuit ignores adapters. -/
def c4Adapter : LogicAdapterModel :=
  { canProcess := fun _ => true,
    process := fun _ _ =>
      Except.ok { response := some (mkStatementObj { text := some "adapter reply" } 0),
                  confidence := 1 } }

/-- A part_000 configuration holding the eager adapter. -/
def c4cfgV0 : BotConfigV0 := { logicAdapters := [c4Adapter] }

/-- The Statement built from the raw whitespace string "   ". -/
def c4RawStmt : Statement :=
  { text := "   ", in_response_to := none, conversation := "default", confidence := 0,
    timestamp := 0, intent := none, entities := [] }

/-- Witness for the amended C4: a whitespace-only input short-circuits even
with an eager adapter registered. -/
theorem C4_empty_input_short_circuit_witness :
    getResponseV0 c4cfgV0 { store := [], previous_statement := none }
      (InputData.raw (StatementConfig.str "   ")) 0 =
      Except.ok (pleaseProvideInput 0, { store := [], previous_statement := none }) :=
  C4_empty_input_short_circuit c4cfgV0 { store := [], previous_statement := none }
    (InputData.raw (StatementConfig.str "   ")) 0 c4RawStmt rfl (by decide)

/-- An adapter that answers every statement with high confidence, used to
exhibit the missing short-circuit in the NLP orchestrator. -/
def c4AdapterV1 : LogicAdapterModel :=
  { canProcess := fun _ => true,
    process := fun _ _ =>
      Except.ok { response := some (mkStatementObj { text := some "adapter reply" } 0),
                  confidence := mkRat 9 10 } }

/-- The NLP orchestrator configuration for the C4 counterexample. -/
def c4cfgV1 : BotConfigV1 :=
  { nlp := fun _ => { intent := "unknown", score := 0, entities := [] },
    logicAdapters := [c4AdapterV1] }

/-- Claim C4 counterexample: the NLP orchestrator in chatbot.js has no
empty-text short-circuit: on a whitespace-only input it still fans out to
the adapters, adopts the adapter's reply (not the fixed "please provide
input" Statement), and updates the store via response-to-intent learning. -/
theorem C4_empty_input_cex :
    (getResponseV1 c4cfgV1 wReadyState
        (InputData.raw (StatementConfig.str "   ")) 0).toOption.map
      (fun p => (p.1.text, p.2.store.length)) = some ("adapter reply", 1)
    ∧ "adapter reply" ≠ "Please provide some input." := by
  decide

/-- An adapter whose process call rejects, modelling a genuine storage
failure inside a logic adapter. -/
def c3ThrowAdapter : LogicAdapterModel :=
  { canProcess := fun _ => true,
    process := fun _ _ => Except.error "storage failure" }

/-- The NLP orchestrator configuration holding only the throwing adapter. -/
def c3cfgV1 : BotConfigV1 :=
  { nlp := fun _ => { intent := "unknown", score := 0, entities := [] },
    logicAdapters := [c3ThrowAdapter] }

/-- Claim C3 counterexample: the NLP orchestrator's adapter loop has no
try/catch, so an exception thrown by an adapter's process call propagates
out of getResponse instead of being treated as an abstention. -/
theorem C3_adapter_error_cex :
    getResponseV1 c3cfgV1 wReadyState (InputData.raw (StatementConfig.str "hi")) 0 =
      Except.error "storage failure" := by
  decide

/-- Claim C3 (amended): in the part_000 / chatbot.js-lines-251-268 fan-out, a
rejecting adapter is caught and contributes nothing — the fold over the
adapter sequence is the same as with that adapter removed, so the turn
continues with the remaining adapters — and that orchestrator's getResponse
on any Statement input always returns a Statement (an `ok` result). -/
theorem C3_catching_loop (pre post : List LogicAdapterModel)
    (a : LogicAdapterModel) (input : Statement) (store : List SerializedStatement)
    (e : String) (cfg : BotConfigV0) (st : BotStateV0) (s : Statement) (now : Nat)
    (h : a.process input store = Except.error e) :
    runAdaptersV0 (pre ++ a :: post) input store = runAdaptersV0 (pre ++ post) input store
    ∧ (getResponseV0 cfg st (InputData.stmt s) now).isOk = true := by
  constructor
  · simp only [runAdaptersV0, List.foldl_append, List.foldl_cons]
    congr 1
    by_cases hcp : a.canProcess input <;> simp [hcp, h]
  · rw [getResponseV0]
    simp only [coerceInput]
    repeat' split
    all_goals rfl

/-- A concrete Statement "hi" used by witnesses. -/
def wStmtHi : Statement :=
  { text := "hi", in_response_to := none, conversation := "default", confidence := 0,
    timestamp := 0, intent := none, entities := [] }

/-- Witness for the amended C3: with the single throwing adapter, the
catching fan-out equals the fan-out with no adapters at all, and the
part_000 getResponse still returns an ok Statement. -/
theorem C3_catching_loop_witness :
    runAdaptersV0 ([] ++ c3ThrowAdapter :: []) wStmtHi [] =
      runAdaptersV0 ([] ++ []) wStmtHi []
    ∧ (getResponseV0 { logicAdapters := [c3ThrowAdapter] }
        { store := [], previous_statement := none } (InputData.stmt wStmtHi) 0).isOk
        = true :=
  C3_catching_loop [] [] c3ThrowAdapter wStmtHi [] "storage failure"
    { logicAdapters := [c3ThrowAdapter] } { store := [], previous_statement := none }
    wStmtHi 0 rfl

/-- Claim C2 (amended): once the NLP orchestrator's fan-out has produced a
best result, that result is adopted if and only if a response Statement is
present and the maximum confidence is greater than OR EQUAL to the 0.4
threshold; on adoption the response's confidence is set to the maximum
confidence while its in_response_to is left exactly as the adapter produced
it (not restamped to the input's text), and response-to-intent learning
runs; otherwise the default Statement with confidence 0 and in_response_to
taken from the current input's text is returned and the store is not
touched by the selection step. -/
theorem C2_selection_amended (cfg : BotConfigV1) (st : BotStateV1)
    (inputData : InputData) (now : Nat) (input : Statement) (nlpResult : NlpResult)
    (best : Option AdapterResult) (maxC : Rat)
    (hready : st.nlpReady = true)
    (hclass : v1Classify cfg inputData now = Except.ok (input, nlpResult))
    (hrun : runAdaptersV1 cfg.logicAdapters input
        (v1StoreAfterSequenceLearning st input now) = Except.ok (best, maxC)) :
    (∀ r resp, best = some r → r.response = some resp → maxC ≥ confidenceThreshold →
        getResponseV1 cfg st inputData now =
          Except.ok ({ resp with confidence := maxC },
            { store := learnResponseToIntent { resp with confidence := maxC }
                input.intent (v1StoreAfterSequenceLearning st input now) now,
              previous_statement := some input,
              nlpReady := st.nlpReady }))
    ∧ ((best = none ∨ (∃ r, best = some r ∧ r.response = none)
          ∨ maxC < confidenceThreshold) →
        getResponseV1 cfg st inputData now =
          Except.ok (v1Default input nlpResult now,
            { store := v1StoreAfterSequenceLearning st input now,
              previous_statement := some input,
              nlpReady := st.nlpReady })) := by
  rw [getResponseV1, hready, if_neg (by simp), hclass]
  constructor
  · rintro r resp rfl hresp hge
    simp only [hrun, hresp, ge_iff_le, if_pos hge]
  · rintro (rfl | ⟨r, rfl, hnone⟩ | hlt)
    · simp only [hrun]
    · simp only [hrun, hnone]
    · rcases best with _ | r
      · simp only [hrun]
      · rcases hr : r.response with _ | resp
        · simp only [hrun, hr]
        · simp only [hrun, hr, if_neg (not_le.mpr hlt)]

/-- A stored response whose in_response_to is visibly not the input's text. -/
def c2StoredResp : Statement :=
  { text := "stored reply", in_response_to := some "weird", conversation := "default",
    confidence := 0, timestamp := 0, intent := some "greeting", entities := [] }

/-- An adapter answering with confidence exactly 0.4, the threshold. -/
def c2Adapter : LogicAdapterModel :=
  { canProcess := fun _ => true,
    process := fun _ _ =>
      Except.ok { response := some c2StoredResp, confidence := mkRat 2 5 } }

/-- The NLP orchestrator configuration for the C2 boundary counterexample. -/
def c2cfg : BotConfigV1 :=
  { nlp := fun _ => { intent := "greeting", score := 1, entities := [] },
    logicAdapters := [c2Adapter] }

/-- Claim C2 counterexample: with a best result of confidence exactly 0.4
(not strictly greater than the threshold), getResponse still adopts it —
the returned Statement carries the adapter's text and confidence 0.4, not
the claimed default with confidence 0 — and its in_response_to stays
"weird", the adapter's value, not the current input's text "hi". -/
theorem C2_selection_cex :
    (getResponseV1 c2cfg wReadyState
        (InputData.raw (StatementConfig.str "Hi")) 0).toOption.map
      (fun p => (p.1.text, p.1.confidence, p.1.in_response_to)) =
      some ("stored reply", mkRat 2 5, some "weird")
    ∧ ¬ confidenceThreshold < mkRat 2 5
    ∧ (v1Classify c2cfg (InputData.raw (StatementConfig.str "Hi")) 0).toOption.map
        (fun p => p.1.text) = some "hi"
    ∧ (some "weird" : Option String) ≠ some "hi"
    ∧ mkRat 2 5 ≠ 0 := by
  decide

/-- The classified input Statement of the C2 witness run. -/
def c2wInput : Statement :=
  { text := "hi", in_response_to := none, conversation := "default", confidence := 0,
    timestamp := 0, intent := some "greeting", entities := [] }

/-- Witness for the amended C2: the adoption branch at a concrete run whose
best confidence equals the threshold. -/
theorem C2_selection_amended_witness :
    getResponseV1 c2cfg wReadyState (InputData.raw (StatementConfig.str "Hi")) 0 =
      Except.ok ({ c2StoredResp with confidence := mkRat 2 5 },
        { store := learnResponseToIntent { c2StoredResp with confidence := mkRat 2 5 }
            c2wInput.intent (v1StoreAfterSequenceLearning wReadyState c2wInput 0) 0,
          previous_statement := some c2wInput,
          nlpReady := wReadyState.nlpReady }) :=
  (C2_selection_amended c2cfg wReadyState (InputData.raw (StatementConfig.str "Hi")) 0
      c2wInput { intent := "greeting", score := 1, entities := [] }
      (some { response := some c2StoredResp, confidence := mkRat 2 5 }) (mkRat 2 5)
      rfl (by decide) (by decide)).1
    { response := some c2StoredResp, confidence := mkRat 2 5 } c2StoredResp
    rfl rfl (by decide)
